import Mathlib

/-!
Shallow embedding of the Smart-Money detection and trade-parameter engine of
`src/backend/trading_assistant_backend.py` (classes `SmartMoneyAnalyzer` and
`TradingAI`).  Prices are modelled as rationals, candle rows of the pandas
DataFrame as a `Candle` structure whose field names follow the DataFrame
columns `Open`, `High`, `Low`, `Close`, `Volume`.
-/

/-- One row of the OHLCV DataFrame consumed by `SmartMoneyAnalyzer`.  The
`timestamp` field models `price_data.index[i]`. -/
structure Candle where
  timestamp : ℕ
  Open : ℚ
  High : ℚ
  Low : ℚ
  Close : ℚ
  Volume : ℚ
  deriving DecidableEq, Inhabited

/-- Round-half-to-even of a rational to an integer, the rounding used by
Python `round` and pandas `Series.round` (idealised to exact decimal
arithmetic, as the rationals have no representation error). -/
def rnd (q : ℚ) : ℤ :=
  if q - ⌊q⌋ < 1/2 then ⌊q⌋
  else if 1/2 < q - ⌊q⌋ then ⌊q⌋ + 1
  else if ⌊q⌋ % 2 = 0 then ⌊q⌋ else ⌊q⌋ + 1

/-- Python `round(q, 2)`. -/
def round2 (q : ℚ) : ℚ := (rnd (q * 100) : ℚ) / 100

/-- Python `round(q, 1)`. -/
def round1 (q : ℚ) : ℚ := (rnd (q * 10) : ℚ) / 10

/-- Insert `z` into a list that is sorted descending by `key`, before the
first element whose key is `≤ key z`.  Together with `sortDesc` this is the
stable descending sort performed by Python
`sorted(xs, key=..., reverse=True)`: elements of equal key keep their
original relative order. -/
def insertDesc {α : Type} (key : α → ℕ) (z : α) : List α → List α
  | [] => [z]
  | a :: t => if key a ≤ key z then z :: a :: t else a :: insertDesc key z t

/-- Stable sort by `key` descending, i.e. Python
`sorted(xs, key=..., reverse=True)`. -/
def sortDesc {α : Type} (key : α → ℕ) : List α → List α
  | [] => []
  | a :: t => insertDesc key a (sortDesc key t)

/-- The distinct values of a list, in order of first appearance. -/
def distinctKeys : List ℚ → List ℚ
  | [] => []
  | a :: t => a :: distinctKeys (t.filter (fun x => x ≠ a))
termination_by l => l.length
decreasing_by
  simpa using Nat.lt_succ_of_le (List.length_filter_le _ _)

/-- Model of pandas `Series.value_counts()`: each distinct value with its
multiplicity, sorted by multiplicity descending.  pandas leaves the relative
order of values of equal multiplicity unspecified; this model uses first
encounter order, which no theorem below depends on. -/
def value_counts (l : List ℚ) : List (ℚ × ℕ) :=
  sortDesc (fun pc => pc.2) ((distinctKeys l).map (fun k => (k, l.count k)))

/-- An order block as emitted by `SmartMoneyAnalyzer.find_order_blocks`. -/
structure OrderBlock where
  type : String
  level : ℚ
  strength : String
  timestamp : ℕ
  deriving DecidableEq

/-- The 3-candle window test at index `i` of the loop body of
`find_order_blocks`.  The fallback candle of `getD` is never reached for the
indices the scan generates. -/
def obAt (data : List Candle) (i : ℕ) : Option OrderBlock :=
  let c0 := data.getD i default
  let c1 := data.getD (i+1) default
  let c2 := data.getD (i+2) default
  if c0.Close < c0.Open ∧ c1.Close > c1.Open ∧ c2.Close > c1.Close then
    some { type := "bullish", level := c0.Low,
           strength := if |c2.Close - c0.Close| > c0.Close * (2/1000) then "strong" else "medium",
           timestamp := c0.timestamp }
  else if c0.Close > c0.Open ∧ c1.Close < c1.Open ∧ c2.Close < c1.Close then
    some { type := "bearish", level := c0.High,
           strength := if |c0.Close - c2.Close| > c0.Close * (2/1000) then "strong" else "medium",
           timestamp := c0.timestamp }
  else none

/-- `SmartMoneyAnalyzer.find_order_blocks`: scan `i in range(2, len-2)`,
keep the last 5 matches. -/
def find_order_blocks (data : List Candle) : List OrderBlock :=
  let obs := (List.range' 2 (data.length - 4)).filterMap (obAt data)
  obs.drop (obs.length - 5)

/-- A liquidity zone as emitted by `SmartMoneyAnalyzer.find_liquidity_zones`. -/
structure LiquidityZone where
  type : String
  level : ℚ
  strength : ℕ
  description : String
  deriving DecidableEq

/-- The f-string description of a liquidity zone (string interpolation of the
Python numbers abstracted by `toString`). -/
def zoneText (side : String) (price : ℚ) (count : ℕ) : String :=
  side ++ " liquidity at " ++ toString price ++ " (tested " ++ toString count ++ " times)"

/-- `SmartMoneyAnalyzer.find_liquidity_zones`: count equal rounded highs
(buy side) and equal rounded lows (sell side), keep counts `≥ 2`, sort all
zones by strength descending (stable), return the first 5. -/
def find_liquidity_zones (data : List Candle) : List LiquidityZone :=
  let buy := ((value_counts (data.map (fun c => round2 c.High))).filter
      (fun pc => 2 ≤ pc.2)).map
      (fun pc => { type := "buy_side", level := pc.1, strength := pc.2,
                   description := zoneText "Buy-side" pc.1 pc.2 : LiquidityZone })
  let sell := ((value_counts (data.map (fun c => round2 c.Low))).filter
      (fun pc => 2 ≤ pc.2)).map
      (fun pc => { type := "sell_side", level := pc.1, strength := pc.2,
                   description := zoneText "Sell-side" pc.1 pc.2 : LiquidityZone })
  (sortDesc (fun z => z.strength) (buy ++ sell)).take 5

/-- A fair value gap as emitted by
`SmartMoneyAnalyzer.calculate_fair_value_gaps`. -/
structure FVG where
  type : String
  upper : ℚ
  lower : ℚ
  midpoint : ℚ
  size : ℚ
  deriving DecidableEq

/-- The 3-candle imbalance test at index `i` of the loop body of
`calculate_fair_value_gaps` (candle `i` is skipped; candles `i-1` and `i+1`
are compared).  The bearish test is an `elif`, so it is not evaluated when
the bullish comparison holds but the gap is below the 0.1% threshold. -/
def fvgAt (data : List Candle) (i : ℕ) : Option FVG :=
  let prev := data.getD (i-1) default
  let mid := data.getD i default
  let next := data.getD (i+1) default
  if next.Low > prev.High then
    if next.Low - prev.High > mid.Close * (1/1000) then
      some { type := "bullish", upper := next.Low, lower := prev.High,
             midpoint := (next.Low + prev.High) / 2, size := next.Low - prev.High }
    else none
  else if next.High < prev.Low then
    if prev.Low - next.High > mid.Close * (1/1000) then
      some { type := "bearish", upper := prev.Low, lower := next.High,
             midpoint := (prev.Low + next.High) / 2, size := prev.Low - next.High }
    else none
  else none

/-- The full chronological list of gaps found by the scan
`i in range(1, len-1)` of `calculate_fair_value_gaps`. -/
def fvgScan (data : List Candle) : List FVG :=
  (List.range' 1 (data.length - 2)).filterMap (fvgAt data)

/-- `SmartMoneyAnalyzer.calculate_fair_value_gaps`: the scan truncated to
its last 3 matches (`fvgs[-3:]`). -/
def calculate_fair_value_gaps (data : List Candle) : List FVG :=
  let fvgs := fvgScan data
  fvgs.drop (fvgs.length - 3)

/-- Lower-casing of a string, character by character
(Python `str.lower()` on the ASCII asset labels). -/
def lowerStr (s : String) : List Char := s.data.map Char.toLower

/-- Substring test: Python `needle in hay`. -/
def containsSub (needle : List Char) : List Char → Bool
  | [] => needle.isEmpty
  | c :: t => needle.isPrefixOf (c :: t) || containsSub needle t

/-- The asset-class branch test of `_calculate_trade_parameters`:
`'forex' in market_data.get('asset_type', '').lower()`. -/
def isForex (asset : String) : Bool := containsSub "forex".data (lowerStr asset)

/-- The stop-loss distance of `_calculate_trade_parameters`:
`stop_distance = current_price * (atr_percent / 100)` with the mock
`atr_percent = 0.5`. -/
def stop_distance (cp : ℚ) : ℚ := cp * (5/1000)

/-- The unrounded entry, stop and take-profit ladder computed by the
bias branch of `_calculate_trade_parameters`. -/
structure EntryLevels where
  entry : ℚ
  stop_loss : ℚ
  tp1 : ℚ
  tp2 : ℚ
  tp3 : ℚ
  deriving DecidableEq

/-- The bias branch of `_calculate_trade_parameters`: the bullish levels for
`bias == 'bullish'`, the bearish levels for every other bias string. -/
def entry_levels (cp : ℚ) (bias : String) : EntryLevels :=
  if bias = "bullish" then
    { entry := cp - cp * (1/1000),
      stop_loss := cp - cp * (1/1000) - stop_distance cp,
      tp1 := cp - cp * (1/1000) + stop_distance cp,
      tp2 := cp - cp * (1/1000) + stop_distance cp * 2,
      tp3 := cp - cp * (1/1000) + stop_distance cp * 3 }
  else
    { entry := cp + cp * (1/1000),
      stop_loss := cp + cp * (1/1000) + stop_distance cp,
      tp1 := cp + cp * (1/1000) - stop_distance cp,
      tp2 := cp + cp * (1/1000) - stop_distance cp * 2,
      tp3 := cp + cp * (1/1000) - stop_distance cp * 3 }

/-- `pip_risk = abs(entry - stop_loss)` of `_calculate_trade_parameters`,
before the forex pip conversion. -/
def pip_risk_raw (cp : ℚ) (bias : String) : ℚ :=
  |(entry_levels cp bias).entry - (entry_levels cp bias).stop_loss|

/-- Errors a `_calculate_trade_parameters` call can be compared against.
The Python function can only raise the interpreter's untyped
`ZeroDivisionError`; `zeroRiskDistance` and `invalidInput` are the typed
errors named by the specification and are never produced by the code — they
are present solely so that statements about them can be written. -/
inductive CalcErr where
  | zeroDivisionError
  | zeroRiskDistance
  | invalidInput
  deriving DecidableEq

/-- The returned dict of `_calculate_trade_parameters` (the nested
`targets` dict is flattened to `tp1`, `tp2`, `tp3`). -/
structure TradeSetup where
  bias : String
  entry : ℚ
  stop_loss : ℚ
  tp1 : ℚ
  tp2 : ℚ
  tp3 : ℚ
  position_size : ℚ
  risk_amount : ℚ
  risk_reward_list : List ℚ
  pip_risk : ℚ
  deriving DecidableEq

/-- `TradingAI._calculate_trade_parameters`.  The function performs no input
validation; division is Python float division, which raises
`ZeroDivisionError` exactly when the denominator is zero, modelled by the
explicit zero test on the position-size denominator. -/
def calculate_trade_parameters (cp bal risk : ℚ) (bias asset : String) :
    Except CalcErr TradeSetup :=
  let lv := entry_levels cp bias
  let risk_amount := bal * (risk / 100)
  let pip_risk := pip_risk_raw cp bias
  let den := if isForex asset then pip_risk * 10000 * 10 else pip_risk
  if den = 0 then Except.error CalcErr.zeroDivisionError
  else
    Except.ok
      { bias := bias,
        entry := round2 lv.entry,
        stop_loss := round2 lv.stop_loss,
        tp1 := round2 lv.tp1,
        tp2 := round2 lv.tp2,
        tp3 := round2 lv.tp3,
        position_size := round2 (risk_amount / den),
        risk_amount := round2 risk_amount,
        risk_reward_list := [1, 2, 3],
        pip_risk := round1 (if isForex asset then pip_risk * 10000 else pip_risk) }

/-- `TradingAI._calculate_confidence`.  `numFactors` is
`len(analysis['confluence_factors'])`, `trend` and `rsi` come from
`market_data['indicators']`, and `adj` is the value drawn by
`random.randint(-5, 10)`, made an explicit argument. -/
def calculate_confidence (numFactors : ℕ) (trend : String) (rsi : ℚ) (adj : ℤ) : ℤ :=
  let c1 : ℤ := 60
  let c2 := if 3 < numFactors then c1 + 10 else c1
  let c3 := if 5 < numFactors then c2 + 10 else c2
  let c4 := if trend = "bullish" ∨ trend = "bearish" then c3 + 5 else c3
  let c5 := if 30 < rsi ∧ rsi < 70 then c4 + 5 else c4
  min 95 (max 50 (c5 + adj))

/-- The confidence algorithm exactly as the specification words it: a sum of
independent bonuses on the base 60, plus the adjustment, clamped to
`[50, 95]`.  Stated separately from `calculate_confidence` (which follows the
source's sequential accumulator) so their agreement is a theorem. -/
def confidenceSpec (numFactors : ℕ) (trend : String) (rsi : ℚ) (adj : ℤ) : ℤ :=
  min 95 (max 50 (60 + (if 3 < numFactors then 10 else 0) + (if 5 < numFactors then 10 else 0)
    + (if trend = "bullish" ∨ trend = "bearish" then 5 else 0)
    + (if 30 < rsi ∧ rsi < 70 then 5 else 0) + adj))

theorem rnd_intCast (z : ℤ) : rnd ((z : ℚ)) = z := by
  unfold rnd
  rw [Int.floor_intCast, sub_self, if_pos (by norm_num : (0:ℚ) < 1/2)]

theorem round2_of_eq (q v : ℚ) (z : ℤ) (h1 : q * 100 = (z : ℚ)) (h2 : (z : ℚ) / 100 = v) :
    round2 q = v := by
  rw [round2, h1, rnd_intCast, h2]

theorem round1_of_eq (q v : ℚ) (z : ℤ) (h1 : q * 10 = (z : ℚ)) (h2 : (z : ℚ) / 10 = v) :
    round1 q = v := by
  rw [round1, h1, rnd_intCast, h2]

theorem mem_insertDesc {α : Type} (key : α → ℕ) (z x : α) (l : List α) :
    x ∈ insertDesc key z l ↔ x = z ∨ x ∈ l := by
  induction l with
  | nil => simp [insertDesc]
  | cons a t ih =>
    rw [insertDesc]
    split
    · simp
    · simp only [List.mem_cons, ih]
      tauto

theorem mem_sortDesc {α : Type} (key : α → ℕ) (x : α) (l : List α) :
    x ∈ sortDesc key l ↔ x ∈ l := by
  induction l with
  | nil => simp [sortDesc]
  | cons a t ih =>
    rw [sortDesc, mem_insertDesc]
    simp [ih]

theorem pairwise_insertDesc {α : Type} (key : α → ℕ) (z : α) (l : List α)
    (h : List.Pairwise (fun a b => key b ≤ key a) l) :
    List.Pairwise (fun a b => key b ≤ key a) (insertDesc key z l) := by
  induction l with
  | nil => simp [insertDesc]
  | cons a t ih =>
    rw [insertDesc]
    rcases List.pairwise_cons.mp h with ⟨ha, ht⟩
    split
    · rename_i hle
      refine List.pairwise_cons.mpr ⟨?_, h⟩
      intro b hb
      rcases List.mem_cons.mp hb with rfl | hbt
      · exact hle
      · exact le_trans (ha b hbt) hle
    · rename_i hgt
      refine List.pairwise_cons.mpr ⟨?_, ih ht⟩
      intro b hb
      rcases (mem_insertDesc key z b t).mp hb with rfl | hbt
      · exact le_of_lt (Nat.lt_of_not_le hgt)
      · exact ha b hbt

theorem pairwise_sortDesc {α : Type} (key : α → ℕ) (l : List α) :
    List.Pairwise (fun a b => key b ≤ key a) (sortDesc key l) := by
  induction l with
  | nil => simp [sortDesc]
  | cons a t ih => exact pairwise_insertDesc key a (sortDesc key t) ih

theorem entry_levels_bullish (cp : ℚ) :
    entry_levels cp "bullish" =
      { entry := cp - cp * (1/1000),
        stop_loss := cp - cp * (1/1000) - stop_distance cp,
        tp1 := cp - cp * (1/1000) + stop_distance cp,
        tp2 := cp - cp * (1/1000) + stop_distance cp * 2,
        tp3 := cp - cp * (1/1000) + stop_distance cp * 3 } := by
  rw [entry_levels, if_pos rfl]

theorem entry_levels_of_ne (cp : ℚ) (bias : String) (h : bias ≠ "bullish") :
    entry_levels cp bias =
      { entry := cp + cp * (1/1000),
        stop_loss := cp + cp * (1/1000) + stop_distance cp,
        tp1 := cp + cp * (1/1000) - stop_distance cp,
        tp2 := cp + cp * (1/1000) - stop_distance cp * 2,
        tp3 := cp + cp * (1/1000) - stop_distance cp * 3 } := by
  rw [entry_levels, if_neg h]

theorem pip_risk_raw_eq (cp : ℚ) (bias : String) : pip_risk_raw cp bias = |cp| * (5/1000) := by
  by_cases hb : bias = "bullish"
  · rw [pip_risk_raw, hb, entry_levels_bullish]
    have h : cp - cp * (1/1000) - (cp - cp * (1/1000) - stop_distance cp) = cp * (5/1000) := by
      rw [stop_distance]; ring
    rw [h, abs_mul, abs_of_pos (by norm_num : (0:ℚ) < 5/1000)]
  · rw [pip_risk_raw, entry_levels_of_ne cp bias hb]
    have h : cp + cp * (1/1000) - (cp + cp * (1/1000) + stop_distance cp) = -(cp * (5/1000)) := by
      rw [stop_distance]; ring
    rw [h, abs_neg, abs_mul, abs_of_pos (by norm_num : (0:ℚ) < 5/1000)]

theorem calc_ok (cp bal risk : ℚ) (bias asset : String) (h : pip_risk_raw cp bias ≠ 0) :
    calculate_trade_parameters cp bal risk bias asset = Except.ok
      { bias := bias,
        entry := round2 (entry_levels cp bias).entry,
        stop_loss := round2 (entry_levels cp bias).stop_loss,
        tp1 := round2 (entry_levels cp bias).tp1,
        tp2 := round2 (entry_levels cp bias).tp2,
        tp3 := round2 (entry_levels cp bias).tp3,
        position_size := round2 (bal * (risk / 100) /
          (if isForex asset then pip_risk_raw cp bias * 10000 * 10 else pip_risk_raw cp bias)),
        risk_amount := round2 (bal * (risk / 100)),
        risk_reward_list := [1, 2, 3],
        pip_risk := round1
          (if isForex asset then pip_risk_raw cp bias * 10000 else pip_risk_raw cp bias) } := by
  have hden : (if isForex asset then pip_risk_raw cp bias * 10000 * 10
      else pip_risk_raw cp bias) ≠ 0 := by
    cases hf : isForex asset
    · simpa [hf] using h
    · simp only [hf, if_true]
      exact mul_ne_zero (mul_ne_zero h (by norm_num)) (by norm_num)
  simp only [calculate_trade_parameters]
  rw [if_neg hden]

theorem calc_error_of_zero (cp bal risk : ℚ) (bias asset : String)
    (h : pip_risk_raw cp bias = 0) :
    calculate_trade_parameters cp bal risk bias asset =
      Except.error CalcErr.zeroDivisionError := by
  have hden : (if isForex asset then pip_risk_raw cp bias * 10000 * 10
      else pip_risk_raw cp bias) = 0 := by
    cases hf : isForex asset <;> simp [hf, h]
  simp only [calculate_trade_parameters]
  rw [if_pos hden]

/-- C1: for bias=bullish, current_price=100, balance=10000, risk_percent=2.5
and the non-forex asset class "stock", `_calculate_trade_parameters` returns
exactly stop_distance=0.5, entry=99.9, stop_loss=99.4, tp1=100.4, tp2=100.9,
tp3=101.4, risk_amount=250.0, pip_risk=0.5 and position_size=500.0, after
the stated rounding. -/
theorem C1_trade_example :
    calculate_trade_parameters 100 10000 (5/2) "bullish" "stock" =
      Except.ok { bias := "bullish", entry := 99.9, stop_loss := 99.4, tp1 := 100.4,
                  tp2 := 100.9, tp3 := 101.4, position_size := 500, risk_amount := 250,
                  risk_reward_list := [1, 2, 3], pip_risk := 0.5 } ∧
    stop_distance 100 = 0.5 := by
  have hpr : pip_risk_raw 100 "bullish" = 1/2 := by rw [pip_risk_raw_eq]; norm_num
  have hf : isForex "stock" = false := by decide
  constructor
  · rw [calc_ok 100 10000 (5/2) "bullish" "stock" (by rw [hpr]; norm_num)]
    rw [entry_levels_bullish, hpr, hf]
    simp only [Bool.false_eq_true, if_false]
    congr 1
    rw [TradeSetup.mk.injEq]
    refine ⟨rfl, ?_, ?_, ?_, ?_, ?_, ?_, ?_, rfl, ?_⟩
    · exact round2_of_eq _ _ 9990 (by norm_num [stop_distance]) (by norm_num)
    · exact round2_of_eq _ _ 9940 (by norm_num [stop_distance]) (by norm_num)
    · exact round2_of_eq _ _ 10040 (by norm_num [stop_distance]) (by norm_num)
    · exact round2_of_eq _ _ 10090 (by norm_num [stop_distance]) (by norm_num)
    · exact round2_of_eq _ _ 10140 (by norm_num [stop_distance]) (by norm_num)
    · exact round2_of_eq _ _ 50000 (by norm_num) (by norm_num)
    · exact round2_of_eq _ _ 25000 (by norm_num) (by norm_num)
    · exact round1_of_eq _ _ 5 (by norm_num) (by norm_num)
  · rw [stop_distance]; norm_num

/-- C2: for every confluence-factor count, trend label, rsi value and random
adjustment in [-5, 10], `_calculate_confidence` returns an integer in
[50, 95], and it equals the specification's closed form: base 60, +10 if the
count exceeds 3, +10 more if it exceeds 5, +5 for a determinate trend, +5 if
30 < rsi < 70, plus the adjustment, clamped to [50, 95]. -/
theorem C2_confidence_bounds (numFactors : ℕ) (trend : String) (rsi : ℚ) (adj : ℤ)
    (h1 : -5 ≤ adj) (h2 : adj ≤ 10) :
    (50 ≤ calculate_confidence numFactors trend rsi adj ∧
      calculate_confidence numFactors trend rsi adj ≤ 95) ∧
    calculate_confidence numFactors trend rsi adj = confidenceSpec numFactors trend rsi adj := by
  simp only [calculate_confidence, confidenceSpec, min_def, max_def]
  split_ifs <;> omega

theorem C2_confidence_bounds_witness :
    (50 ≤ calculate_confidence 4 "bullish" 50 3 ∧ calculate_confidence 4 "bullish" 50 3 ≤ 95) ∧
    calculate_confidence 4 "bullish" 50 3 = confidenceSpec 4 "bullish" 50 3 :=
  C2_confidence_bounds 4 "bullish" 50 3 (by decide) (by decide)

/-- C3 (amended): whenever the computed pip_risk is 0, the position-size
division of `_calculate_trade_parameters` fails with the interpreter's
untyped division-by-zero error; the code defines no typed ZeroRiskDistance
error and does attempt the division. -/
theorem C3_zero_pip_risk (cp bal risk : ℚ) (bias asset : String)
    (h : pip_risk_raw cp bias = 0) :
    calculate_trade_parameters cp bal risk bias asset =
      Except.error CalcErr.zeroDivisionError :=
  calc_error_of_zero cp bal risk bias asset h

/-- C3, the claim as stated is false: at current_price 0 the computed
pip_risk is 0, yet the calculator yields the untyped division-by-zero
error, not a typed ZeroRiskDistance error. -/
theorem C3_counterexample :
    pip_risk_raw 0 "bullish" = 0 ∧
    calculate_trade_parameters 0 10000 (5/2) "bullish" "stock" =
      Except.error CalcErr.zeroDivisionError ∧
    (Except.error CalcErr.zeroDivisionError : Except CalcErr TradeSetup) ≠
      Except.error CalcErr.zeroRiskDistance := by
  have h0 : pip_risk_raw 0 "bullish" = 0 := by rw [pip_risk_raw_eq]; norm_num
  exact ⟨h0, calc_error_of_zero 0 10000 (5/2) "bullish" "stock" h0, by simp⟩

theorem C3_zero_pip_risk_witness :
    calculate_trade_parameters 0 10000 (5/2) "bullish" "stock" =
      Except.error CalcErr.zeroDivisionError :=
  C3_zero_pip_risk 0 10000 (5/2) "bullish" "stock" (by rw [pip_risk_raw_eq]; norm_num)

/-- C4 (amended): `_calculate_trade_parameters` performs no input
validation: for every input with current_price ≠ 0 it returns a TradeSetup,
even when the price is negative, the risk percent is outside (0, 100] or
the balance is negative; no typed InvalidInput rejection exists. -/
theorem C4_no_validation (cp bal risk : ℚ) (bias asset : String) (h : cp ≠ 0) :
    ∃ s, calculate_trade_parameters cp bal risk bias asset = Except.ok s := by
  have hpr : pip_risk_raw cp bias ≠ 0 := by
    rw [pip_risk_raw_eq]
    intro h0
    rcases mul_eq_zero.mp h0 with h1 | h1
    · exact h (abs_eq_zero.mp h1)
    · norm_num at h1
  exact ⟨_, calc_ok cp bal risk bias asset hpr⟩

/-- C4, the claim as stated is false: with current_price = -100 (non-positive),
balance = -500 (negative) and risk_percent = 200 (outside (0,100]) the
calculator still returns a full TradeSetup instead of rejecting with a typed
InvalidInput error. -/
theorem C4_counterexample :
    calculate_trade_parameters (-100) (-500) 200 "bullish" "stock" =
      Except.ok { bias := "bullish", entry := -99.9, stop_loss := -99.4, tp1 := -100.4,
                  tp2 := -100.9, tp3 := -101.4, position_size := -2000, risk_amount := -1000,
                  risk_reward_list := [1, 2, 3], pip_risk := 0.5 } := by
  have hpr : pip_risk_raw (-100) "bullish" = 1/2 := by rw [pip_risk_raw_eq]; norm_num
  have hf : isForex "stock" = false := by decide
  rw [calc_ok (-100) (-500) 200 "bullish" "stock" (by rw [hpr]; norm_num)]
  rw [entry_levels_bullish, hpr, hf]
  simp only [Bool.false_eq_true, if_false]
  congr 1
  rw [TradeSetup.mk.injEq]
  refine ⟨rfl, ?_, ?_, ?_, ?_, ?_, ?_, ?_, rfl, ?_⟩
  · exact round2_of_eq _ _ (-9990) (by norm_num [stop_distance]) (by norm_num)
  · exact round2_of_eq _ _ (-9940) (by norm_num [stop_distance]) (by norm_num)
  · exact round2_of_eq _ _ (-10040) (by norm_num [stop_distance]) (by norm_num)
  · exact round2_of_eq _ _ (-10090) (by norm_num [stop_distance]) (by norm_num)
  · exact round2_of_eq _ _ (-10140) (by norm_num [stop_distance]) (by norm_num)
  · exact round2_of_eq _ _ (-200000) (by norm_num) (by norm_num)
  · exact round2_of_eq _ _ (-100000) (by norm_num) (by norm_num)
  · exact round1_of_eq _ _ 5 (by norm_num) (by norm_num)

theorem C4_no_validation_witness :
    ∃ s, calculate_trade_parameters (-100) (-500) 200 "bullish" "stock" = Except.ok s :=
  C4_no_validation (-100) (-500) 200 "bullish" "stock" (by norm_num)

/-- C5: a series shorter than 5 candles yields no order blocks, shorter than
3 yields no fair value gaps, shorter than 2 yields no liquidity zones — an
empty result, not an error. -/
theorem C5_short_series (data : List Candle) :
    (data.length < 5 → find_order_blocks data = []) ∧
    (data.length < 3 → calculate_fair_value_gaps data = []) ∧
    (data.length < 2 → find_liquidity_zones data = []) := by
  refine ⟨fun h5 => ?_, fun h3 => ?_, fun h2 => ?_⟩
  · have h : data.length - 4 = 0 := by omega
    simp [find_order_blocks, h]
  · have h : data.length - 2 = 0 := by omega
    simp [calculate_fair_value_gaps, fvgScan, h]
  · rcases data with _ | ⟨a, _ | ⟨b, t⟩⟩
    · simp [find_liquidity_zones, value_counts, distinctKeys, sortDesc]
    · simp [find_liquidity_zones, value_counts, distinctKeys, sortDesc, insertDesc]
    · exfalso
      simp only [List.length_cons] at h2
      omega

theorem C5_short_series_witness :
    find_order_blocks [⟨0, 1, 1, 1, 1, 0⟩] = [] ∧
    calculate_fair_value_gaps [⟨0, 1, 1, 1, 1, 0⟩] = [] ∧
    find_liquidity_zones [⟨0, 1, 1, 1, 1, 0⟩] = [] :=
  ⟨(C5_short_series _).1 (by decide),
   (C5_short_series _).2.1 (by decide),
   (C5_short_series _).2.2 (by decide)⟩

/-- C6: the liquidity-zone output is sorted by strength descending, has at
most 5 elements, and every returned zone has strength at least 2. -/
theorem C6_liquidity_ranked (data : List Candle) :
    List.Pairwise (fun a b => b.strength ≤ a.strength) (find_liquidity_zones data) ∧
    (find_liquidity_zones data).length ≤ 5 ∧
    (find_liquidity_zones data).all (fun z => 2 ≤ z.strength) = true := by
  refine ⟨?_, ?_, ?_⟩
  · exact (pairwise_sortDesc (fun z : LiquidityZone => z.strength) _).sublist
      (List.take_sublist _ _)
  · simp only [find_liquidity_zones]
    exact List.length_take_le _ _
  · rw [List.all_eq_true]
    intro z hz
    simp only [find_liquidity_zones] at hz
    have hz2 := (mem_sortDesc _ _ _).mp (List.mem_of_mem_take hz)
    rcases List.mem_append.mp hz2 with h | h <;>
      rcases List.mem_map.mp h with ⟨pc, hpc, rfl⟩ <;>
      · have h2 := (List.mem_filter.mp hpc).2
        simpa using h2

theorem fvgAt_size (data : List Candle) (i : ℕ) (g : FVG) (h : fvgAt data i = some g) :
    g.size > (data.getD i default).Close * (1/1000) := by
  simp only [fvgAt] at h
  split_ifs at h with h1 h2 h3 h4
  · injection h with h
    subst h
    simpa using h2
  · injection h with h
    subst h
    simpa using h4

/-- C8: every emitted fair value gap has size strictly greater than 0.1% of
the close of the skipped middle candle, and the output is the chronologically
last 3 matches (a suffix of the chronological scan) with at most 3 gaps. -/
theorem C8_fvg_threshold (data : List Candle) :
    (calculate_fair_value_gaps data).length ≤ 3 ∧
    (calculate_fair_value_gaps data).length = min 3 (fvgScan data).length ∧
    List.IsSuffix (calculate_fair_value_gaps data) (fvgScan data) ∧
    ∀ g ∈ calculate_fair_value_gaps data, ∃ i, fvgAt data i = some g ∧
      g.size > (data.getD i default).Close * (1/1000) := by
  have hdrop : calculate_fair_value_gaps data =
      (fvgScan data).drop ((fvgScan data).length - 3) := rfl
  refine ⟨?_, ?_, ?_, ?_⟩
  · rw [hdrop, List.length_drop]
    omega
  · rw [hdrop, List.length_drop]
    omega
  · rw [hdrop]
    exact List.drop_suffix _ _
  · intro g hg
    rw [hdrop] at hg
    rcases List.mem_filterMap.mp (List.mem_of_mem_drop hg) with ⟨i, _, hi⟩
    exact ⟨i, hi, fvgAt_size data i g hi⟩

/-- A 3-candle series with one bullish fair value gap, used to witness the
fair-value-gap properties on a concrete input. -/
def fvgSample : List Candle :=
  [⟨0, 9, 10, 8, 9, 0⟩, ⟨1, 9, 10, 8, 100, 0⟩, ⟨2, 25, 26, 20, 25, 0⟩]

theorem C8_fvg_threshold_witness :
    (calculate_fair_value_gaps fvgSample).length ≤ 3 ∧
    ∃ i, fvgAt fvgSample i = some ⟨"bullish", 20, 10, 15, 10⟩ ∧
      (FVG.mk "bullish" 20 10 15 10).size > (fvgSample.getD i default).Close * (1/1000) :=
  ⟨(C8_fvg_threshold fvgSample).1,
   (C8_fvg_threshold fvgSample).2.2.2 ⟨"bullish", 20, 10, 15, 10⟩ (by
     norm_num [calculate_fair_value_gaps, fvgScan, fvgAt, fvgSample, List.range',
       List.filterMap, List.getD])⟩

/-- C9: whenever `_calculate_trade_parameters` returns a setup, then for a
forex asset class (detected case-insensitively by substring) the position
size is risk_amount / (pip_risk × 10000 × 10) and the reported pip_risk is
the entry-stop distance × 10000 rounded to 1 decimal, while for any other
asset class the position size is risk_amount / pip_risk and pip_risk is the
raw entry-stop distance rounded to 1 decimal; entry, stop, targets,
position size and risk amount are rounded to 2 decimals. -/
theorem C9_position_sizing (cp bal risk : ℚ) (bias asset : String) (s : TradeSetup)
    (h : calculate_trade_parameters cp bal risk bias asset = Except.ok s) :
    (isForex asset = true →
      s.position_size = round2 (bal * (risk / 100) / (|cp| * (5/1000) * 10000 * 10)) ∧
      s.pip_risk = round1 (|cp| * (5/1000) * 10000)) ∧
    (isForex asset = false →
      s.position_size = round2 (bal * (risk / 100) / (|cp| * (5/1000))) ∧
      s.pip_risk = round1 (|cp| * (5/1000))) ∧
    s.entry = round2 (entry_levels cp bias).entry ∧
    s.stop_loss = round2 (entry_levels cp bias).stop_loss ∧
    s.tp1 = round2 (entry_levels cp bias).tp1 ∧
    s.tp2 = round2 (entry_levels cp bias).tp2 ∧
    s.tp3 = round2 (entry_levels cp bias).tp3 ∧
    s.risk_amount = round2 (bal * (risk / 100)) := by
  simp only [calculate_trade_parameters] at h
  cases hf : isForex asset
  · simp only [hf, Bool.false_eq_true, if_false] at h
    split at h
    · exact absurd h (by simp)
    · injection h with h
      subst h
      refine ⟨fun htrue => absurd htrue (by simp [hf]), fun _ => ?_, rfl, rfl, rfl, rfl, rfl, rfl⟩
      refine ⟨?_, ?_⟩ <;> simp [pip_risk_raw_eq]
  · simp only [hf, eq_self_iff_true, if_true] at h
    split at h
    · exact absurd h (by simp)
    · injection h with h
      subst h
      refine ⟨fun _ => ?_, fun hfalse => absurd hfalse (by simp [hf]), rfl, rfl, rfl, rfl, rfl, rfl⟩
      refine ⟨?_, ?_⟩ <;> simp [pip_risk_raw_eq]

theorem C9_position_sizing_witness :
    (TradeSetup.mk "bullish" 99.9 99.4 100.4 100.9 101.4 2 100000 [1, 2, 3] 5000).position_size =
      round2 ((1000000 : ℚ) * (10 / 100) / (|(100 : ℚ)| * (5/1000) * 10000 * 10)) ∧
    (TradeSetup.mk "bullish" 99.9 99.4 100.4 100.9 101.4 2 100000 [1, 2, 3] 5000).pip_risk =
      round1 (|(100 : ℚ)| * (5/1000) * 10000) :=
  (C9_position_sizing 100 1000000 10 "bullish" "Forex" _ (by
    have hpr : pip_risk_raw 100 "bullish" = 1/2 := by rw [pip_risk_raw_eq]; norm_num
    have hf : isForex "Forex" = true := by decide
    rw [calc_ok 100 1000000 10 "bullish" "Forex" (by rw [hpr]; norm_num)]
    rw [entry_levels_bullish, hpr, hf]
    simp only [eq_self_iff_true, if_true]
    congr 1
    rw [TradeSetup.mk.injEq]
    refine ⟨rfl, ?_, ?_, ?_, ?_, ?_, ?_, ?_, rfl, ?_⟩
    · exact round2_of_eq _ _ 9990 (by norm_num [stop_distance]) (by norm_num)
    · exact round2_of_eq _ _ 9940 (by norm_num [stop_distance]) (by norm_num)
    · exact round2_of_eq _ _ 10040 (by norm_num [stop_distance]) (by norm_num)
    · exact round2_of_eq _ _ 10090 (by norm_num [stop_distance]) (by norm_num)
    · exact round2_of_eq _ _ 10140 (by norm_num [stop_distance]) (by norm_num)
    · exact round2_of_eq _ _ 200 (by norm_num) (by norm_num)
    · exact round2_of_eq _ _ 10000000 (by norm_num) (by norm_num)
    · exact round1_of_eq _ _ 50000 (by norm_num) (by norm_num))).1 (by decide)

/-- C10: every bias string other than "bullish" — "neutral", the empty
string, anything — takes the bearish branch of `_calculate_trade_parameters`:
entry 0.1% above the current price, stop above the entry by the stop
distance, all three targets below the entry (for a positive price). -/
theorem C10_nonbullish_bias (cp : ℚ) (bias : String) (h : bias ≠ "bullish") :
    (entry_levels cp bias).entry = cp + cp * (1/1000) ∧
    (entry_levels cp bias).stop_loss = (entry_levels cp bias).entry + stop_distance cp ∧
    (entry_levels cp bias).tp1 = (entry_levels cp bias).entry - stop_distance cp ∧
    (entry_levels cp bias).tp2 = (entry_levels cp bias).entry - stop_distance cp * 2 ∧
    (entry_levels cp bias).tp3 = (entry_levels cp bias).entry - stop_distance cp * 3 ∧
    entry_levels cp bias = entry_levels cp "bearish" ∧
    (0 < cp → cp < (entry_levels cp bias).entry ∧
      (entry_levels cp bias).tp1 < (entry_levels cp bias).entry ∧
      (entry_levels cp bias).tp2 < (entry_levels cp bias).entry ∧
      (entry_levels cp bias).tp3 < (entry_levels cp bias).entry) := by
  rw [entry_levels_of_ne cp bias h, entry_levels_of_ne cp "bearish" (by decide)]
  refine ⟨rfl, rfl, rfl, rfl, rfl, rfl, fun hcp => ?_⟩
  simp only [stop_distance]
  refine ⟨by linarith, by linarith, by linarith, by linarith⟩

theorem C10_nonbullish_bias_witness :
    (entry_levels 100 "neutral").entry = 100 + 100 * (1/1000) ∧
    (entry_levels 100 "neutral").tp1 < (entry_levels 100 "neutral").entry :=
  ⟨(C10_nonbullish_bias 100 "neutral" (by decide)).1,
   ((C10_nonbullish_bias 100 "neutral" (by decide)).2.2.2.2.2.2 (by norm_num)).2.1⟩
